import Mathlib

/-!
# Verification of the ImageToPDF_App asynchronous OCR pipeline

Shallow embedding, in Lean 4, of the core of the `ImageToPDF_App` repository
(`app.py`, `utils.py`, `security.py`, `config.py`): filename security,
the OCR pipeline result assembly and spell-correction pass, the task
registry with its polling protocol, and the background worker.

Strings are modelled as Lean `String`s, manipulated through their
underlying `List Char`, so that every definition is executable and can be
evaluated by `decide`/`rfl` on concrete inputs.  Machinery from the Python
standard library and third-party libraries that the source calls
(`os.path.join`, `os.path.abspath`, `os.path.normpath`, `os.path.splitext`,
`str.split`, `str.strip`, `str.rsplit`, `werkzeug.utils.secure_filename`,
`pyspellchecker`'s tokenizer) is embedded from the documented, stable
behaviour of those functions on POSIX / ASCII input, which is the setting
all concrete inputs below live in.
-/

namespace ImageToPDF

/-! ## Generic character-list utilities (Python string primitives) -/

/-- Python whitespace characters relevant to ASCII input
(`str.split()` / `str.strip()` with no arguments split on these). -/
def isPyWhitespace (c : Char) : Bool :=
  c = ' ' || c = '\t' || c = '\n' || c = '\x0d' || c = '\x0b' || c = '\x0c'

/-- `str.strip()` on ASCII input: remove leading and trailing whitespace. -/
def pyStripChars (l : List Char) : List Char :=
  ((l.dropWhile isPyWhitespace).reverse.dropWhile isPyWhitespace).reverse

/-- `str.strip()` lifted to `String`. -/
def pyStrip (s : String) : String :=
  (pyStripChars s.data).asString

/-- `str.split()` with no separator: split on whitespace runs, dropping
empty fields. -/
def pySplitWs : List Char → List (List Char)
  | [] => []
  | c :: rest =>
    if isPyWhitespace c then pySplitWs rest
    else
      match pySplitWs rest with
      | [] => [[c]]
      | w :: ws =>
        match rest with
        | [] => [[c]]
        | r :: _ => if isPyWhitespace r then [c] :: w :: ws else (c :: w) :: ws

/-- `str.split(sep)` for a one-character separator: keeps empty fields,
as Python does. -/
def splitOnChar (sep : Char) : List Char → List (List Char)
  | [] => [[]]
  | c :: rest =>
    match splitOnChar sep rest with
    | [] => if c = sep then [[], []] else [[c]]
    | h :: t => if c = sep then [] :: h :: t else (c :: h) :: t

/-- `sep.join(fields)` for a one-character separator. -/
def joinWithChar (sep : Char) : List (List Char) → List Char
  | [] => []
  | [w] => w
  | w :: ws => w ++ sep :: joinWithChar sep ws

/-- Number of start positions at which `pat` occurs in `l`
(Python's substring containment / occurrence counting). -/
def countSub (pat : List Char) : List Char → Nat
  | [] => 0
  | c :: rest => (if pat.isPrefixOf (c :: rest) then 1 else 0) + countSub pat rest

/-- Python's `pat in s` substring test. -/
def containsSub (s pat : String) : Bool :=
  decide (0 < countSub pat.data s.data)

/-- ASCII lowercasing of a character list (`str.lower()` on ASCII input). -/
def pyLowerChars (l : List Char) : List Char :=
  l.map Char.toLower

/-- `str.lower()` lifted to `String` (ASCII input). -/
def pyLower (s : String) : String :=
  (pyLowerChars s.data).asString

/-- `s.rsplit('.', 1)` restricted to what the source uses: `none` when the
string holds no `'.'`, otherwise the pair (part before the last dot,
part after the last dot). -/
def rsplitLastDot : List Char → Option (List Char × List Char)
  | [] => none
  | c :: rest =>
    match rsplitLastDot rest with
    | some (b, a) => some (c :: b, a)
    | none => if c = '.' then some ([], rest) else none

/-! ## POSIX `os.path` model -/

/-- `str.startswith` / Python string prefix test, on the underlying
character lists (kernel-reducible, unlike `String.startsWith`). -/
def pyStartswith (s pre : String) : Bool :=
  pre.data.isPrefixOf s.data

/-- `str.endswith`. -/
def pyEndswith (s suf : String) : Bool :=
  suf.data.isSuffixOf s.data

/-- `os.path.join(a, b)` on POSIX, two arguments. -/
def pjoin (a b : String) : String :=
  if pyStartswith b "/" then b
  else if a = "" || pyEndswith a "/" then a ++ b
  else a ++ "/" ++ b

/-- One step of `posixpath.normpath`'s component loop: Python's
`for comp in comps` body, with `acc` holding `new_comps` in order. -/
def normpathStep (initialSlashes : Nat) (acc : List (List Char)) (comp : List Char) :
    List (List Char) :=
  if comp = [] || comp = ['.'] then acc
  else if comp ≠ ['.', '.'] || (initialSlashes = 0 && acc.isEmpty)
      || (!acc.isEmpty && acc.getLast? = some ['.', '.']) then
    acc ++ [comp]
  else if !acc.isEmpty then acc.dropLast
  else acc

/-- `posixpath.normpath`. -/
def normpath (p : String) : String :=
  if p = "" then "." else
  let initialSlashes : Nat :=
    if pyStartswith p "/" then
      (if pyStartswith p "//" && !pyStartswith p "///" then 2 else 1)
    else 0
  let comps := splitOnChar '/' p.data
  let newComps := comps.foldl (normpathStep initialSlashes) []
  let joined := joinWithChar '/' newComps
  let out := (List.replicate initialSlashes '/') ++ joined
  if out = [] then "." else out.asString

/-- `os.path.abspath(p)` on POSIX, with the process working directory made
explicit as `cwd`. -/
def abspath (cwd p : String) : String :=
  if pyStartswith p "/" then normpath p else normpath (pjoin cwd p)

/-- `os.path.splitext` on a path basename (no `'/'` inside): the extension
starts at the last dot, unless every character before it is a dot
(hidden-file rule), in which case there is no extension. -/
def splitextName (name : List Char) : List Char × List Char :=
  let leading := name.takeWhile (· = '.')
  let rest := name.drop leading.length
  let afterDot := rest.reverse.takeWhile (· ≠ '.')
  if afterDot.length = rest.length then (name, [])
  else
    (leading ++ rest.take (rest.length - afterDot.length - 1),
     '.' :: afterDot.reverse)

/-- `os.path.splitext(p)` on POSIX: only dots inside the basename count. -/
def splitext (p : String) : String × String :=
  let revName := p.data.reverse.takeWhile (· ≠ '/')
  let name := revName.reverse
  let dir := p.data.take (p.data.length - name.length)
  let (b, e) := splitextName name
  ((dir ++ b).asString, e.asString)

/-! ## `werkzeug.utils.secure_filename`

The source's filename sanitizer.  Its stable implementation is: NFKD
normalization followed by ASCII encoding with `ignore` (the identity on
ASCII characters — the model drops other characters, which is exact for
ASCII input), replacement of the OS path separator `'/'` by a space
(POSIX has no `altsep`), `"_".join(name.split())`, deletion of every
character outside `[A-Za-z0-9_.-]`, and `.strip("._")`.  On POSIX the
Windows-device-name renaming branch is inactive. -/

/-- Characters `werkzeug`'s `_filename_ascii_strip_re` keeps. -/
def isFilenameKeepChar (c : Char) : Bool :=
  (('A' ≤ c && c ≤ 'Z') || ('a' ≤ c && c ≤ 'z') || ('0' ≤ c && c ≤ '9')
    || c = '_' || c = '.' || c = '-')

/-- `.strip("._")`: remove leading and trailing `'.'` and `'_'`. -/
def stripDotUnderscore (l : List Char) : List Char :=
  let isStripped := fun c => c = '.' || c = '_'
  ((l.dropWhile isStripped).reverse.dropWhile isStripped).reverse

/-- `werkzeug.utils.secure_filename` on ASCII input, POSIX. -/
def secure_filename (s : String) : String :=
  let ascii := s.data.filter (fun c => c.toNat < 128)
  let seps := ascii.map (fun c => if c = '/' then ' ' else c)
  let joined := joinWithChar '_' (pySplitWs seps)
  let kept := joined.filter isFilenameKeepChar
  (stripDotUnderscore kept).asString

/-! ## `security.py` -/

/-- The reserved device names `security.py` checks against
(`security.py` line 91). -/
def reservedNames : List String :=
  ["con", "prn", "aux", "nul", "com1", "lpt1", "lpt2"]

/-- Python truthiness of the `unique_id` argument (`if unique_id:`):
`None` and the empty string are falsy. -/
def uniqueIdTruthy : Option String → Bool
  | none => false
  | some s => s ≠ ""

/-- `security.validate_and_secure_filename(filename, unique_id)`.

`MAX_FILENAME_LENGTH` is a module global configured at startup
(default `128`, `config.py` sets `128`); it is made an explicit
argument `maxLen` here.  `os.urandom` does not occur in this function;
it is deterministic. -/
def validate_and_secure_filename (maxLen : Nat) (filename : String)
    (unique_id : Option String) : Option String :=
  -- `if not filename or not filename.strip(): return None`
  if filename = "" || pyStrip filename = "" then none
  else
    -- 1. separate name and extension
    let ne := splitext filename
    let name_part := ne.1
    let ext_part := ne.2
    -- 2. secure both parts
    let secured_name_part := secure_filename name_part
    let secured_ext_part := secure_filename ext_part
    -- 3. empty-base check
    if secured_name_part = "" && (secured_ext_part = "." || secured_ext_part = "") then
      none
    else
      -- `if unique_id:` — Python truthiness: `None` and `""` are falsy
      let uidStr := unique_id.getD ""
      -- 4. length budget for the base
      let added_len : Nat :=
        (if uidStr ≠ "" then uidStr.length + 1 else 0) + secured_ext_part.length
      let max_base_len : Nat :=
        if (maxLen : Int) - (added_len : Int) < 1 then 1
        else ((maxLen : Int) - (added_len : Int)).toNat
      -- 5. truncate the secured base name
      let truncated :=
        if secured_name_part.length > max_base_len then
          (secured_name_part.data.take max_base_len).asString
        else secured_name_part
      -- 6. reassemble
      let secured_filename := truncated ++ secured_ext_part
      -- 7. unique prefix
      let final_filename :=
        if uidStr ≠ "" then uidStr ++ "_" ++ secured_filename else secured_filename
      -- 8. reserved-name check on the lowercased base of the final name
      let base_name_no_ext := pyLower (splitextName final_filename.data).1.asString
      if reservedNames.contains base_name_no_ext then none
      else some final_filename

/-- `security.get_unique_filename(original_filename)`.  The
cryptographically random 32-character task id produced by
`os.urandom(16).hex()` is made an explicit argument `task_id`. -/
def get_unique_filename (maxLen : Nat) (task_id : String)
    (original_filename : String) : Option (String × String) :=
  match validate_and_secure_filename maxLen original_filename (some task_id) with
  | some safe_filename =>
    if safe_filename.length > maxLen + 33 then none
    else some (task_id, safe_filename)
  | none => none

/-- `security.is_safe_to_serve(filename)`.  The module globals
`UPLOAD_FOLDER` and the process working directory (used implicitly by
`os.path.abspath`) are explicit arguments. -/
def is_safe_to_serve (cwd uploadFolder filename : String) : Bool :=
  let target_path := pjoin uploadFolder filename
  let absolute_path := abspath cwd target_path
  let upload_abspath := abspath cwd uploadFolder
  pyStartswith absolute_path upload_abspath

/-! ## `utils.py` / `app.py` — file-type filter -/

/-- `ALLOWED_EXTENSIONS` as fixed in `app.py` line 31 and `config.py`
line 12. -/
def ALLOWED_EXTENSIONS : List String :=
  ["png", "jpg", "jpeg", "tif", "tiff", "pdf"]

/-- `allowed_file(filename)` (`utils.py` lines 38–41 and the identical
`app.py` lines 82–85): `'.' in filename and
filename.rsplit('.', 1)[1].lower() in ALLOWED_EXTENSIONS`.  The
short-circuiting `and` guards the `rsplit(...)[1]` indexing. -/
def allowed_file (filename : String) : Bool :=
  filename.data.contains '.' &&
    (match rsplitLastDot filename.data with
     | some (_, ext) => ALLOWED_EXTENSIONS.contains (pyLowerChars ext).asString
     | none => false)

/-! ## OCR pipeline (`utils.py` 83–220, `app.py` 110–213)

The pipeline calls four external effectful systems: Tesseract
(`pytesseract`), the rasterizer (`fitz`), the language detector
(`langdetect`) and the spell checker's dictionary (`pyspellchecker`).
Their behaviour on one call is captured by an `OcrEnv` record; a raised
Python exception is an `Except` error value.  `perform_ocr` itself is a
total function — exactly mirroring the fact that its Python body wraps
everything in handlers ending in `except Exception`. -/

/-- The Python exception classes `perform_ocr`'s handlers distinguish. -/
inductive PyExc
  | tesseractNotFound
  | runtimeError (msg : String)
  | unidentifiedImage
  | other (msg : String)
deriving DecidableEq, Repr

/-- Result dictionary of `perform_ocr`: `{status: success, text: ...}`
or `{status: error, message: ...}`.  In the `utils.py` variant the text
can be Python `None` (see `reconstruct_text`), hence `Option String`. -/
inductive OcrOutcome
  | success (text : Option String)
  | error (message : String)
deriving DecidableEq, Repr

/-- One call's view of the external world.  `containerOcr`/`imageOcr`
map the Tesseract config string to the recognized page texts / text
(or a raised exception); `sampleText` is the total
`process_text_for_ocr` result (that helper catches every exception and
returns `""`); `detect` is `langdetect.detect` on the sample, `Except
Unit` for `LangDetectException`; `known w` is `w ∉ spell.unknown(words)`
and `correction` is `spell.correction` (`None` possible). -/
structure OcrEnv where
  tesseractOk : Bool
  sampleText : String
  detect : Except Unit String
  containerOcr : String → Except PyExc (List String)
  imageOcr : String → Except PyExc String
  known : String → Bool
  correction : String → Option String

/-- The message built by adjacent string literals at `utils.py`
lines 210–211 / `app.py` lines 203–204. -/
def engineUnavailableMsg : String :=
  "OCR Engine is not running or Tesseract is not installed correctly."

/-- The delimiter line of the page banner: the source writes it as a
literal run of 54 `'='` characters. -/
def bannerEq : String :=
  (List.replicate 54 '=').asString

/-- The page-delimiter block inserted between consecutive pages
(`utils.py` lines 181–185, `app.py` lines 173–177), for 1-based page
number `i` of `n`. -/
def pageBanner (i n : Nat) : String :=
  "\n" ++ bannerEq ++ "\n--- PAGE " ++ toString i ++ " of " ++ toString n
    ++ " ---\n" ++ bannerEq ++ "\n\n"

/-- The `for i, page in enumerate(doc)` loop of STEP 2: concatenate the
page texts, inserting `pageBanner (i+1) n` before every page except the
first (`full_text` is empty exactly at `i = 0`). -/
def assemblePages (pages : List String) : String :=
  let n := pages.length
  String.join (pages.enum.map (fun p =>
    if p.1 = 0 then p.2 else pageBanner (p.1 + 1) n ++ p.2))

/-- Characters matched by `\w` in the spell checker's tokenizer regex
(ASCII input). -/
def isWordChar (c : Char) : Bool :=
  c.isAlphanum || c = '_'

/-- `pyspellchecker`'s `split_words` on ASCII input: lowercase, then the
regex `(\w[\w']*\w|\w)` — maximal runs of word characters and inner
apostrophes, with leading/trailing apostrophes excluded.  Modelled as:
maximal runs of `\w`-or-apostrophe characters, stripped of apostrophes
at both ends, empty runs dropped. -/
def split_words_chars : List Char → List (List Char)
  | [] => []
  | c :: rest =>
    if isWordChar c || c = '\'' then
      match split_words_chars rest with
      | [] => [[c]]
      | w :: ws =>
        match rest with
        | [] => [[c]]
        | r :: _ =>
          if isWordChar r || r = '\'' then (c :: w) :: ws else [c] :: w :: ws
    else split_words_chars rest

/-- `spell.split_words(text)` as a `String`-level function. -/
def split_words (text : String) : List String :=
  ((split_words_chars (pyLowerChars text.data)).map
    (fun w => ((w.dropWhile (· = '\'')).reverse.dropWhile (· = '\'')).reverse)).filterMap
    (fun w => if w = [] then none else some w.asString)

/-- STEP 3's correction loop: each word in `spell.unknown(words)` is
replaced by `spell.correction(word) or word`. -/
def spellPass (known : String → Bool) (correction : String → Option String)
    (words : List String) : List String :=
  words.map (fun w =>
    if known w then w
    else match correction w with
      | some c => c
      | none => w)

/-- `' '.join(words).strip()`. -/
def joinWordsStrip (words : List String) : String :=
  pyStrip (String.intercalate " " words)

/-- A line the `reconstruct_text` loop treats as a banner line
(`utils.py` line 124). -/
def isBannerLine (line : String) : Bool :=
  containsSub line bannerEq || containsSub line "--- PAGE"

/-- `str.splitlines()` on input whose only line break is `'\n'` (the
only break the pipeline produces): like splitting on `'\n'`, except
that a trailing newline produces no final empty line. -/
def pySplitlines (s : String) : List String :=
  if s = "" then []
  else
    let fields := (splitOnChar '\n' s.data).map List.asString
    if pyEndswith s "\n" then fields.dropLast else fields

/-- `utils.reconstruct_text(words_list, original_text)` (`utils.py`
lines 107–144).  The loop appends banner lines to
`reconstructed_lines` and `continue`s past them, but its body ends in
an unconditional `return " ".join(words_list).strip()`, so the first
non-banner line terminates the function; when every line is a banner
line (or there are no lines) control falls off the end and Python
returns `None` — hence `Option String`. -/
def reconstruct_text (words_list : List String) (original_text : String) :
    Option String :=
  let rec loop : List String → Option String
    | [] => none
    | line :: rest =>
      if isBannerLine line then loop rest
      else some (joinWordsStrip words_list)
  loop (pySplitlines original_text)

/-- STEP 1 of `perform_ocr`: the resolved language.  When
`lang = 'detect'`, detection runs on the low-resolution sample; a
non-empty sample with a successful detection maps `'en'` to `'eng'`
and passes other codes through; an empty sample or a
`LangDetectException` degrades to `'eng'`. -/
def resolveLang (env : OcrEnv) (lang : String) : String :=
  if lang = "detect" then
    if env.sampleText ≠ "" then
      match env.detect with
      | Except.ok d => if d = "en" then "eng" else d
      | Except.error _ => "eng"
    else "eng"
  else lang

/-- The Tesseract config string `f'--oem 3 --psm {psm} -l {lang}'`. -/
def tessConfig (psm lang : String) : String :=
  "--oem 3 --psm " ++ psm ++ " -l " ++ lang

/-- STEP 2: the raw OCR text, or the exception it raises.  Container
formats go through `fitz` page by page with banners inserted; other
extensions through a single `image_to_string` call. -/
def ocrRawText (env : OcrEnv) (image_path config : String) :
    Except PyExc String :=
  let ext := pyLower (splitext image_path).2
  if ext = ".pdf" || ext = ".tif" || ext = ".tiff" then
    match env.containerOcr config with
    | Except.ok pages => Except.ok (assemblePages pages)
    | Except.error e => Except.error e
  else env.imageOcr config

namespace Utils

/-- `utils.perform_ocr(image_path, lang, psm)` (`utils.py` lines
147–220): raise `TesseractNotFoundError` when the startup probe failed;
resolve the language; OCR; spell-correct; reconstruct.  Every handler
of the `try` is embedded in the final `match`, ending with the
catch-all `except Exception`; the function is total, so no exception
propagates past the pipeline boundary. -/
def perform_ocr (env : OcrEnv) (image_path lang psm : String) : OcrOutcome :=
  let body : Except PyExc (Option String) :=
    if !env.tesseractOk then Except.error PyExc.tesseractNotFound
    else
      let resolved := resolveLang env lang
      let config := tessConfig psm resolved
      match ocrRawText env image_path config with
      | Except.error e => Except.error e
      | Except.ok ocr_result =>
        let words := split_words ocr_result
        let corrected_words := spellPass env.known env.correction words
        Except.ok (reconstruct_text corrected_words ocr_result)
  match body with
  | Except.ok final_text => OcrOutcome.success final_text
  | Except.error PyExc.tesseractNotFound => OcrOutcome.error engineUnavailableMsg
  | Except.error (PyExc.runtimeError msg) =>
    if containsSub msg "Failed loading language" then
      OcrOutcome.error ("Tesseract language pack '" ++ resolveLang env lang
        ++ "' is missing.")
    else OcrOutcome.error ("An OCR processing error occurred: " ++ msg)
  | Except.error PyExc.unidentifiedImage =>
    OcrOutcome.error "Could not open file. Ensure it is a valid image/PDF file."
  | Except.error (PyExc.other msg) =>
    OcrOutcome.error ("An unexpected error occurred during OCR: " ++ msg)

end Utils

namespace App

/-- `app.perform_ocr(image_path, lang, psm)` (`app.py` lines 135–213):
identical to the `utils.py` variant except STEP 3 ends with
`final_text = " ".join(cleaned_words).strip()` instead of
`reconstruct_text`, so the text is never `None`. -/
def perform_ocr (env : OcrEnv) (image_path lang psm : String) : OcrOutcome :=
  let body : Except PyExc String :=
    if !env.tesseractOk then Except.error PyExc.tesseractNotFound
    else
      let resolved := resolveLang env lang
      let config := tessConfig psm resolved
      match ocrRawText env image_path config with
      | Except.error e => Except.error e
      | Except.ok ocr_result =>
        let words := split_words ocr_result
        let cleaned_words := spellPass env.known env.correction words
        Except.ok (joinWordsStrip cleaned_words)
  match body with
  | Except.ok final_text => OcrOutcome.success (some final_text)
  | Except.error PyExc.tesseractNotFound => OcrOutcome.error engineUnavailableMsg
  | Except.error (PyExc.runtimeError msg) =>
    if containsSub msg "Failed loading language" then
      OcrOutcome.error ("Tesseract language pack '" ++ resolveLang env lang
        ++ "' is missing.")
    else OcrOutcome.error ("An OCR processing error occurred: " ++ msg)
  | Except.error PyExc.unidentifiedImage =>
    OcrOutcome.error "Could not open file. Ensure it is a valid image/PDF file."
  | Except.error (PyExc.other msg) =>
    OcrOutcome.error ("An unexpected error occurred during OCR: " ++ msg)

end App

/-! ## Task registry, worker and polling (`app.py` 74–393)

`task_results` is a Python dict guarded by `task_lock`.  It is modelled
as a map `String → Option TaskEntry`.  Every block the source executes
while holding the lock is one atomic operation of the model; `app.py`'s
`get_status` takes the lock twice (once to read, once to delete), so it
is embedded as two separate atomic phases, composed sequentially for
the single-threaded view. -/

/-- The `'status'` value of a registry entry: `'pending'` at submission,
`'complete' | 'failed'` written by the worker (`app.py` line 248). -/
inductive TaskState
  | pending
  | complete
  | failed
deriving DecidableEq, Repr

/-- A `task_results` entry.  The upload path stores only
`{'status': 'pending'}`; the worker stores `status`, `data` (the
`perform_ocr` result dictionary) and `preview_filename`; absent dict
keys are `none`. -/
structure TaskEntry where
  state : TaskState
  data : Option OcrOutcome
  preview_filename : Option String
deriving DecidableEq, Repr

/-- The in-memory task registry `task_results`. -/
def Registry : Type := String → Option TaskEntry

/-- The empty registry. -/
def regEmpty : Registry := fun _ => none

/-- `task_results[id] = e` under the lock. -/
def regSet (reg : Registry) (id : String) (e : TaskEntry) : Registry :=
  fun x => if x = id then some e else reg x

/-- `task_results.get(id)` under the lock. -/
def regGet (reg : Registry) (id : String) : Option TaskEntry :=
  reg id

/-- `del task_results[id]` under the lock: raises `KeyError` when the
key is absent. -/
def regDelE (reg : Registry) (id : String) : Except Unit Registry :=
  match reg id with
  | some _ => Except.ok (fun x => if x = id then none else reg x)
  | none => Except.error ()

/-- The upload path's seeding of the registry (`app.py` lines 336–337):
`task_results[task_id] = {'status': 'pending'}`. -/
def uploadSeed (reg : Registry) (task_id : String) : Registry :=
  regSet reg task_id ⟨TaskState.pending, none, none⟩

/-- The response `get_status` produces.  `successPayload` carries the
fields the route copies out of the complete entry (`task['data']` and
`task['preview_filename']`); `failedTask` carries `json.dumps(task)`,
i.e. the whole entry; `keyErrorCrash` marks an uncaught `KeyError`
from `del task_results[task_id]` (surfacing as an HTTP 500). -/
inductive PollResponse
  | notFound
  | processing
  | failedTask (e : TaskEntry)
  | successPayload (data : Option OcrOutcome) (filename : Option String)
  | keyErrorCrash
deriving DecidableEq, Repr

/-- First critical section of `get_status` (`app.py` lines 363–364):
`with task_lock: task = task_results.get(task_id)`. -/
def pollPhase1 (reg : Registry) (task_id : String) : Option TaskEntry :=
  regGet reg task_id

/-- The rest of `get_status` (`app.py` lines 366–393), given the value
`task` read in phase 1: the lock-free status dispatch, and — for a
terminal state — the second critical section
`with task_lock: del task_results[task_id]`.  The trailing
`return ... 'Unknown task state.'` of the source is unreachable here
because `TaskState` has exactly the three states the two writers
produce. -/
def pollPhase2 (reg : Registry) (task_id : String) (task : Option TaskEntry) :
    PollResponse × Registry :=
  match task with
  | none => (PollResponse.notFound, reg)
  | some t =>
    match t.state with
    | TaskState.pending => (PollResponse.processing, reg)
    | TaskState.failed =>
      match regDelE reg task_id with
      | Except.ok reg' => (PollResponse.failedTask t, reg')
      | Except.error _ => (PollResponse.keyErrorCrash, reg)
    | TaskState.complete =>
      match regDelE reg task_id with
      | Except.ok reg' =>
        (PollResponse.successPayload t.data t.preview_filename, reg')
      | Except.error _ => (PollResponse.keyErrorCrash, reg)

/-- `get_status(task_id)` as executed with no interleaved writer: the
two critical sections run back to back. -/
def get_status (reg : Registry) (task_id : String) : PollResponse × Registry :=
  pollPhase2 reg task_id (pollPhase1 reg task_id)

/-- Whether `ocr_worker` treats the original name as multi-page
(`app.py` line 227): `original_filename.lower().endswith(('.pdf',
'.tif', '.tiff'))`. -/
def isMultipageName (original_filename : String) : Bool :=
  let low := pyLower original_filename
  pyEndswith low ".pdf" || pyEndswith low ".tif" || pyEndswith low ".tiff"

/-- `original_filename.rsplit('.', 1)[0]`: the part before the last
dot, the whole name when it has no dot. -/
def rsplitBase (original_filename : String) : String :=
  match rsplitLastDot original_filename.data with
  | some (b, _) => b.asString
  | none => original_filename

/-- `app.ocr_worker(task_id, filepath, lang, psm, original_filename)`
(`app.py` lines 217–259), restricted to its effect on the registry.

Externalities are explicit arguments: `env` drives `perform_ocr`;
`uid8` is the `os.urandom(8).hex()` preview id; `previewFails` is true
when the preview `try` block raises (rasterizing or saving), in which
case the handler falls back to the original name.  The final
`os.remove` happens after the registry write, only touches the file
system, and its `OSError` is caught, so the returned registry is the
worker's complete effect regardless of deletion failure. -/
def ocr_worker (env : OcrEnv) (previewFails : Bool) (uid8 : String)
    (reg : Registry) (task_id filepath lang psm original_filename : String) :
    Registry :=
  let result := App.perform_ocr env filepath lang psm
  let preview_filename :=
    match result with
    | OcrOutcome.success _ =>
      if isMultipageName original_filename then
        if previewFails then original_filename
        else rsplitBase original_filename ++ "_" ++ uid8 ++ ".png"
      else original_filename
    | OcrOutcome.error _ => original_filename
  regSet reg task_id
    { state :=
        match result with
        | OcrOutcome.success _ => TaskState.complete
        | OcrOutcome.error _ => TaskState.failed
      data := some result
      preview_filename := some preview_filename }

/-- The storage name the upload route builds (`app.py` lines 324–325):
`safe_filename = f"{task_id}_{original_filename}"`, with the raw,
unsanitized original name. -/
def uploadStorageName (task_id original_filename : String) : String :=
  task_id ++ "_" ++ original_filename

/-! ## Concrete instantiations used by the evaluation theorems -/

/-- An environment for one call on a 3-page container document: the
engine is up, recognition of the three pages yields `"hello"`,
`"world"`, `"good"`, and the spell checker knows every token (so the
correction loop keeps all words). -/
def env3pages : OcrEnv :=
  { tesseractOk := true
    sampleText := ""
    detect := Except.error ()
    containerOcr := fun _ => Except.ok ["hello", "world", "good"]
    imageOcr := fun _ => Except.error (PyExc.other "unreachable for .pdf input")
    known := fun _ => true
    correction := fun _ => none }

/-- An environment in which the startup probe found no Tesseract
(`TESSERACT_OK` false); the other collaborators behave normally. -/
def envEngineDown : OcrEnv :=
  { tesseractOk := false
    sampleText := "some sample"
    detect := Except.ok "en"
    containerOcr := fun _ => Except.ok ["page text"]
    imageOcr := fun _ => Except.ok "image text"
    known := fun _ => true
    correction := fun _ => none }

/-- The final text `Utils.perform_ocr` produces on `env3pages`. -/
def threePageFinalText : String :=
  "hello page 2 of 3 world page 3 of 3 good"

/-- A terminal registry entry as the worker writes it for a successful
task. -/
def termEntry : TaskEntry :=
  { state := TaskState.complete
    data := some (OcrOutcome.success (some "text"))
    preview_filename := some "p.png" }

/-- A registry holding exactly one terminal task `"t"`. -/
def regT : Registry := regSet regEmpty "t" termEntry

end ImageToPDF

set_option maxRecDepth 100000

namespace ImageToPDF

/-! ## Helper lemmas -/

/-- Length of a concatenation of strings. -/
theorem strLen_append (a b : String) : (a ++ b).length = a.length + b.length :=
  String.length_append a b

/-- Length of the separator `"_"`. -/
theorem strLen_underscore : ("_" : String).length = 1 := rfl

/-- `asString` preserves length. -/
theorem asString_length (l : List Char) : (l.asString).length = l.length := rfl

/-- `takeWhile` walks through a first block that wholly satisfies the
predicate. -/
theorem takeWhile_append_all {p : Char → Bool} {xs : List Char} (ys : List Char)
    (h : ∀ x ∈ xs, p x = true) :
    (xs ++ ys).takeWhile p = xs ++ ys.takeWhile p := by
  induction xs with
  | nil => simp
  | cons x xs ih =>
    simp only [List.cons_append, List.takeWhile_cons]
    rw [h x (by simp)]
    simp [ih (fun y hy => h y (by simp [hy]))]

/-- `takeWhile` never leaves a first block holding a failing element. -/
theorem takeWhile_append_stop {p : Char → Bool} {xs : List Char} (ys : List Char)
    (h : ∃ x ∈ xs, p x = false) :
    (xs ++ ys).takeWhile p = xs.takeWhile p := by
  induction xs with
  | nil => simp at h
  | cons x xs ih =>
    simp only [List.cons_append, List.takeWhile_cons]
    by_cases hp : p x = true
    · rw [hp]
      obtain ⟨y, hy, hpy⟩ := h
      rcases List.mem_cons.mp hy with rfl | hy'
      · rw [hp] at hpy
        exact Bool.noConfusion hpy
      · rw [ih ⟨y, hy', hpy⟩]
    · have hpf : p x = false := by
        cases hpx : p x
        · rfl
        · exact absurd hpx hp
      rw [hpf]
      simp

/-- `rsplitLastDot` finds nothing exactly on dot-free input. -/
theorem rsplitLastDot_eq_none {l : List Char} :
    rsplitLastDot l = none ↔ '.' ∉ l := by
  induction l with
  | nil => simp [rsplitLastDot]
  | cons c rest ih =>
    simp only [rsplitLastDot]
    cases hr : rsplitLastDot rest with
    | some pr =>
      obtain ⟨b, a⟩ := pr
      have hdot : '.' ∈ rest := by
        by_contra hne
        exact Option.noConfusion ((ih.mpr hne).symm.trans hr)
      simp [hdot]
    | none =>
      have hnd : '.' ∉ rest := ih.mp hr
      by_cases hc : c = '.'
      · subst hc
        simp
      · simp [hc, hnd, Ne.symm hc]

/-- `rsplitLastDot` splits at the last dot: the second component is the
maximal dot-free suffix, and the input is the first component, a dot,
and the second component. -/
theorem rsplitLastDot_some {l : List Char} : ∀ {b a : List Char},
    rsplitLastDot l = some (b, a) →
    a = (l.reverse.takeWhile (fun c => c ≠ '.')).reverse ∧ l = b ++ '.' :: a := by
  induction l with
  | nil =>
    intro b a h
    exact Option.noConfusion h
  | cons c rest ih =>
    intro b a h
    simp only [rsplitLastDot] at h
    cases hr : rsplitLastDot rest with
    | some pr =>
      obtain ⟨b', a'⟩ := pr
      rw [hr] at h
      have h' : some (c :: b', a') = some (b, a) := h
      rw [Option.some.injEq, Prod.mk.injEq] at h'
      obtain ⟨hb, ha⟩ := h'
      subst hb
      subst ha
      obtain ⟨iha, ihsplit⟩ := ih hr
      have hmem : '.' ∈ rest.reverse := by
        rw [List.mem_reverse, ihsplit]
        simp
      refine ⟨?_, ?_⟩
      · rw [iha, List.reverse_cons, takeWhile_append_stop [c] ⟨'.', hmem, by simp⟩]
      · rw [List.cons_append, ← ihsplit]
    | none =>
      rw [hr] at h
      by_cases hc : c = '.'
      · subst hc
        have h' : some (([] : List Char), rest) = some (b, a) := by
          rw [if_pos rfl] at h
          exact h
        rw [Option.some.injEq, Prod.mk.injEq] at h'
        obtain ⟨hb, ha⟩ := h'
        subst hb
        subst ha
        have hnd : '.' ∉ rest := rsplitLastDot_eq_none.mp hr
        refine ⟨?_, by simp⟩
        rw [List.reverse_cons, takeWhile_append_all ['.'] ?_]
        · simp
        · intro x hx
          simp only [List.mem_reverse] at hx
          simp only [decide_eq_true_eq]
          exact fun hxx => hnd (hxx ▸ hx)
      · rw [if_neg hc] at h
        exact Option.noConfusion h

/-- Reading back the key just written to the registry. -/
theorem regGet_regSet_self (reg : Registry) (id : String) (e : TaskEntry) :
    regGet (regSet reg id e) id = some e := by
  simp [regGet, regSet]

/-! ## Theorems for the specification claims -/

/-- Claim C1.  For every task id: after the upload path seeds the
registry with state `pending`, a poll returns `processing` and leaves
the entry in place (and likewise for any pending entry); the first
poll that observes a terminal state (`complete` or `failed`) returns
that terminal payload and removes the entry; afterwards the entry is
gone, so every subsequent poll for the same id — and any poll for an
absent id — returns "not found" (the route's 404). -/
theorem C1_task_lifecycle :
    (∀ (reg : Registry) (id : String),
      get_status (uploadSeed reg id) id = (PollResponse.processing, uploadSeed reg id))
    ∧ (∀ (reg : Registry) (id : String) (e : TaskEntry),
        regGet reg id = some e → e.state = TaskState.pending →
        get_status reg id = (PollResponse.processing, reg))
    ∧ (∀ (reg : Registry) (id : String) (e : TaskEntry),
        regGet reg id = some e → e.state = TaskState.complete →
        get_status reg id
          = (PollResponse.successPayload e.data e.preview_filename,
             fun x => if x = id then none else reg x))
    ∧ (∀ (reg : Registry) (id : String) (e : TaskEntry),
        regGet reg id = some e → e.state = TaskState.failed →
        get_status reg id
          = (PollResponse.failedTask e, fun x => if x = id then none else reg x))
    ∧ (∀ (reg : Registry) (id : String) (e : TaskEntry),
        regGet reg id = some e → e.state ≠ TaskState.pending →
        regGet (get_status reg id).2 id = none
        ∧ get_status (get_status reg id).2 id
            = (PollResponse.notFound, (get_status reg id).2))
    ∧ (∀ (reg : Registry) (id : String),
        regGet reg id = none → get_status reg id = (PollResponse.notFound, reg)) := by
  refine ⟨?_, ?_, ?_, ?_, ?_, ?_⟩
  · intro reg id
    simp [get_status, pollPhase1, pollPhase2, uploadSeed, regSet, regGet]
  · intro reg id e hget hst
    have h' : reg id = some e := hget
    simp [get_status, pollPhase1, pollPhase2, regGet, h', hst]
  · intro reg id e hget hst
    have h' : reg id = some e := hget
    simp [get_status, pollPhase1, pollPhase2, regGet, regDelE, h', hst]
  · intro reg id e hget hst
    have h' : reg id = some e := hget
    simp [get_status, pollPhase1, pollPhase2, regGet, regDelE, h', hst]
  · intro reg id e hget hst
    have h' : reg id = some e := hget
    cases e with
    | mk st d p =>
      cases st with
      | pending => simp at hst
      | complete =>
        constructor
        · simp [get_status, pollPhase1, pollPhase2, regGet, regDelE, h']
        · simp [get_status, pollPhase1, pollPhase2, regGet, regDelE, h']
      | failed =>
        constructor
        · simp [get_status, pollPhase1, pollPhase2, regGet, regDelE, h']
        · simp [get_status, pollPhase1, pollPhase2, regGet, regDelE, h']
  · intro reg id hget
    have h' : reg id = none := hget
    simp [get_status, pollPhase1, pollPhase2, regGet, h']

/-- Witness for C1: a freshly seeded task polls as `processing`; the
concrete terminal task `"t"` is delivered and removed on its first
poll. -/
theorem C1_task_lifecycle_witness :
    get_status (uploadSeed regEmpty "t") "t"
        = (PollResponse.processing, uploadSeed regEmpty "t")
    ∧ get_status regT "t"
        = (PollResponse.successPayload (some (OcrOutcome.success (some "text")))
            (some "p.png"), fun x => if x = "t" then none else regT x)
    ∧ regGet (get_status regT "t").2 "t" = none :=
  ⟨C1_task_lifecycle.1 regEmpty "t",
   C1_task_lifecycle.2.2.1 regT "t" termEntry (by decide) (by decide),
   (C1_task_lifecycle.2.2.2.2.1 regT "t" termEntry (by decide) (by decide)).1⟩

/-- Claim C3. Whenever the OCR engine was determined unavailable at service
startup (`TESSERACT_OK` false), `perform_ocr` — in both its `utils.py`
and `app.py` variants — returns `{status: error}` with the
engine-unavailable message, for every input path, language and
page-segmentation mode and for every behaviour of the rasterizer,
detector and spell checker (so the result is deterministic and
independent of image content).  Both functions are total Lean
functions, so no exception passes the pipeline boundary in the model,
mirroring the source's handler chain ending in `except Exception`. -/
theorem C3_engine_unavailable_deterministic (env : OcrEnv)
    (image_path lang psm : String) (h : env.tesseractOk = false) :
    Utils.perform_ocr env image_path lang psm
        = OcrOutcome.error engineUnavailableMsg
    ∧ App.perform_ocr env image_path lang psm
        = OcrOutcome.error engineUnavailableMsg := by
  constructor <;> simp [Utils.perform_ocr, App.perform_ocr, h]

/-- Witness for C3: the concrete engine-down environment at a concrete
input. -/
theorem C3_engine_unavailable_witness :
    Utils.perform_ocr envEngineDown "img.png" "eng" "3"
        = OcrOutcome.error engineUnavailableMsg
    ∧ App.perform_ocr envEngineDown "img.png" "eng" "3"
        = OcrOutcome.error engineUnavailableMsg :=
  C3_engine_unavailable_deterministic envEngineDown "img.png" "eng" "3" (by decide)

/-- C4 (refuted — the code contradicts the claim and its own test
`test_06_is_safe_to_serve`).  `is_safe_to_serve` compares resolved
paths with a plain string-prefix test and treats `'\'` as an ordinary
character on POSIX, so (with upload folder `uploads` and working
directory `/app`): the filename `"../uploadsx/a.png"` contains `"../"`
and resolves outside the upload directory, yet is accepted; and the
filename `"..\\..\\config.ini"` contains `"..\\"`, yet is accepted. -/
theorem C4_is_safe_to_serve_accepts_traversal :
    containsSub "../uploadsx/a.png" "../" = true
    ∧ abspath "/app" (pjoin "uploads" "../uploadsx/a.png") = "/app/uploadsx/a.png"
    ∧ is_safe_to_serve "/app" "uploads" "../uploadsx/a.png" = true
    ∧ containsSub "..\\..\\config.ini" "..\\" = true
    ∧ is_safe_to_serve "/app" "uploads" "..\\..\\config.ini" = true
    ∧ is_safe_to_serve "/app" "uploads" "../../../etc/passwd" = false := by
  decide

/-- C5 (refuted — the upload route never calls Filename Security).
`upload_file` saves under `f"{task_id}_{original_filename}"` with the
raw original name: the allowed extension filter accepts
`"../evil.pdf"`, the stored name keeps the `"../"` traversal sequence
verbatim, and it differs from what `validate_and_secure_filename`
(which `security.get_unique_filename` wraps) would have produced for
the same name and id. -/
theorem C5_upload_storage_name_unsanitized :
    allowed_file "../evil.pdf" = true
    ∧ uploadStorageName "t0" "../evil.pdf" = "t0_../evil.pdf"
    ∧ containsSub (uploadStorageName "t0" "../evil.pdf") "../" = true
    ∧ validate_and_secure_filename 128 "../evil.pdf" (some "t0") = some "t0_evilpdf"
    ∧ uploadStorageName "t0" "../evil.pdf" ≠ "t0_evilpdf" := by
  decide

/-- C6 (refuted — the code contradicts the claim and its own test
`test_04`, which asserts
`validate_and_secure_filename("CON.txt") is None`).  The sanitizer
strips the extension's leading dot, so the reserved-name check sees
`"CONtxt"`; and with a unique id the check inspects the prefixed base
`"abc_con..."`.  Hence reserved device names with an extension or a
prefix are NOT rejected; only a bare reserved name with neither is. -/
theorem C6_reserved_name_not_rejected :
    validate_and_secure_filename 128 "CON.txt" none = some "CONtxt"
    ∧ validate_and_secure_filename 128 "con.txt" (some "abc") = some "abc_contxt"
    ∧ validate_and_secure_filename 128 "con" (some "abc") = some "abc_con"
    ∧ validate_and_secure_filename 128 "con" none = none := by
  decide

/-- C2 (refuted — the code contradicts `reconstruct_text`'s own
docstring, the dead banner-preserving branch inside it, and the
`generate_pdf` consumer that splits on the banner).  On a 3-page
container whose pages read `"hello"`, `"world"`, `"good"` and whose
tokens are all known to the dictionary, the pre-correction
concatenation contains exactly the 2 page-delimiter banners (two
`--- PAGE i of 3` headers, four 54-`'='` delimiter lines), but the
text field `Utils.perform_ocr` returns is the space-joined token list,
which contains no banner at all. -/
theorem C2_page_banners_destroyed :
    Utils.perform_ocr env3pages "doc.pdf" "eng" "3"
        = OcrOutcome.success (some threePageFinalText)
    ∧ countSub "--- PAGE ".data (assemblePages ["hello", "world", "good"]).data = 2
    ∧ countSub bannerEq.data (assemblePages ["hello", "world", "good"]).data = 4
    ∧ countSub bannerEq.data threePageFinalText.data = 0
    ∧ countSub "--- PAGE ".data threePageFinalText.data = 0
    ∧ countSub (pyLower "--- PAGE ").data threePageFinalText.data = 0 := by
  decide

/-- C9 (refuted — `get_status` takes the registry lock twice, once for
the read and once for the delete, so the read-and-delete is NOT one
critical section).  With task `"t"` terminal, the interleaving
read(A), read(B), delete(A), delete(B) is possible; both polls observe
the terminal entry, poll A is answered with the terminal payload, and
poll B's `del task_results[task_id]` raises `KeyError` (an uncaught
exception in the route, surfacing as HTTP 500). -/
theorem C9_concurrent_poll_race :
    (pollPhase2 regT "t" (pollPhase1 regT "t")).1
        = PollResponse.successPayload (some (OcrOutcome.success (some "text")))
            (some "p.png")
    ∧ (pollPhase2 (pollPhase2 regT "t" (pollPhase1 regT "t")).2 "t"
          (pollPhase1 regT "t")).1
        = PollResponse.keyErrorCrash := by
  constructor
  · rfl
  · rfl

/-- Claim C7.  For every original name and every fixed non-empty unique
id for which `validate_and_secure_filename` returns a non-null result
(under any configured maximum length of at least 1, default 128), the
result starts with `"<unique_id>_"` and its length never exceeds the
configured maximum plus the id/separator/extension overhead — the
base keeps at least one character even when the overhead exhausts the
budget, in which case the bound `maxLen + overhead` still holds. -/
theorem C7_secure_name_prefix_and_length (maxLen : Nat) (filename uid r : String)
    (hmax : 1 ≤ maxLen) (huid : uid ≠ "")
    (h : validate_and_secure_filename maxLen filename (some uid) = some r) :
    (∃ rest, r = uid ++ "_" ++ rest)
    ∧ r.length ≤ maxLen + (uid.length + 1 + (secure_filename (splitext filename).2).length) := by
  unfold validate_and_secure_filename at h
  split at h
  · exact Option.noConfusion h
  · simp only [Option.getD_some, ne_eq, huid, not_false_eq_true, if_true] at h
    split at h
    · exact Option.noConfusion h
    · split at h <;> split at h <;> split at h <;>
        first
        | exact Option.noConfusion h
        | (rw [Option.some.injEq] at h
           subst h
           refine ⟨⟨_, rfl⟩, ?_⟩
           simp only [strLen_append, strLen_underscore, asString_length,
             List.length_take]
           omega)

/-- Witness for C7 at the default configuration: `"report.pdf"` with id
`"abc"` secures to `"abc_reportpdf"`. -/
theorem C7_secure_name_witness :
    (∃ rest, "abc_reportpdf" = "abc" ++ "_" ++ rest)
    ∧ ("abc_reportpdf" : String).length
        ≤ 128 + (("abc" : String).length + 1
            + (secure_filename (splitext "report.pdf").2).length) :=
  C7_secure_name_prefix_and_length 128 "report.pdf" "abc" "abc_reportpdf"
    (by decide) (by decide) (by decide)

/-- Claim C8.  For every worker run, whatever `perform_ocr` returns
(any engine/rasterizer/detector/dictionary behaviour `env`) and
whether or not preview generation fails, the task's registry entry
after the worker body is a terminal state — `complete` or `failed`,
never `pending`.  The worker's final file deletion happens after this
write, cannot touch the registry, and catches its `OSError`, so the
returned registry is the worker's complete effect. -/
theorem C8_worker_always_terminal (env : OcrEnv) (previewFails : Bool)
    (uid8 : String) (reg : Registry)
    (task_id filepath lang psm original_filename : String) :
    ∃ e : TaskEntry,
      regGet (ocr_worker env previewFails uid8 reg task_id filepath lang psm
          original_filename) task_id = some e
      ∧ e.state ≠ TaskState.pending
      ∧ (e.state = TaskState.complete ∨ e.state = TaskState.failed) := by
  unfold ocr_worker
  refine ⟨_, regGet_regSet_self _ _ _, ?_, ?_⟩
  · cases hr : App.perform_ocr env filepath lang psm <;> simp [hr]
  · cases hr : App.perform_ocr env filepath lang psm <;> simp [hr]

/-- Claim C10.  `allowed_file filename` is true if and only if
`filename` contains a `'.'` and the substring after the last `'.'`
(characterized independently of the embedded `rsplit` as the reversed
maximal dot-free suffix), lowercased, is in the allowed-extensions
set; in particular matching is case-insensitive (`"A.PDF"` is
accepted) and a dot-free name or an empty trailing extension is
rejected. -/
theorem C10_allowed_file_iff :
    (∀ filename : String,
      allowed_file filename = true ↔
        ('.' ∈ filename.data ∧
          (((filename.data.reverse.takeWhile (fun c => c ≠ '.')).reverse.map
              Char.toLower).asString ∈ ALLOWED_EXTENSIONS)))
    ∧ allowed_file "A.PDF" = true
    ∧ allowed_file "report" = false
    ∧ allowed_file "a." = false := by
  refine ⟨?_, by decide, by decide, by decide⟩
  intro filename
  unfold allowed_file
  cases hr : rsplitLastDot filename.data with
  | none =>
    have hnm : '.' ∉ filename.data := rsplitLastDot_eq_none.mp hr
    simp [hnm, List.contains]
  | some pr =>
    obtain ⟨b, a⟩ := pr
    obtain ⟨ha, hsplit⟩ := rsplitLastDot_some hr
    have hmem : '.' ∈ filename.data := by
      rw [hsplit]
      simp
    rw [← ha]
    simp [hmem, pyLowerChars, List.contains]

end ImageToPDF
